import Mathlib

/-!
Verification of the PEAKATS dashboard core (recruiter and client views):
record store adapter, filter engine, diff-and-save pass, and the
aggregation layer, shallowly embedded from the two Python sources.
Nullable store columns are `Option` values; SQL `COALESCE(c, d)` becomes
`Option.getD`; boolean 0/1 columns are `Bool`; numeric scores are `ℚ`.
-/

namespace Peakats

/-- A persistent candidate row as stored in the `candidates` table.
Columns the queries select without `COALESCE` and columns that the schema
allows to be absent are `Option`-valued. -/
structure DbCandidate where
  id : Nat
  first_name : String
  last_name : String
  client_id : String
  email : Option String
  phone : Option String
  fedex_id : Option String
  application_date : Option String
  rwp_score : Option ℚ
  rwp_classification : Option String
  rwp_rationale : Option String
  resume_notes : Option String
  background_status : Option String
  background_id : Option String
  drug_test_status : Option String
  drug_test_id : Option String
  profile_status : Option String
  legacy_order_status : Option String
  recruiter_notes : Option String
  gcic_uploaded : Option Bool
  mec_uploaded : Option Bool
  gcic_upload_date : Option String
  mec_upload_date : Option String
  status : Option String
  intake_date : Option String
  created_at : Option String
  updated_at : Option String
  fadv_change_flag : Option Bool
  fadv_change_details : Option String
  fadv_last_updated : Option String
  resume_filename : Option String
  deriving DecidableEq

/-- One row of the recruiter snapshot, as produced by the SELECT of
`load_candidates` in recruiter_dashboard.py (column aliases kept).
Fields selected without `COALESCE` (email, phone, resume_filename)
stay `Option`-valued. -/
structure Candidate where
  id : Nat
  first_name : String
  last_name : String
  client_id : String
  email : Option String
  phone : Option String
  fedex_id : String
  initiated : String
  rwp_score : ℚ
  rwp_classification : String
  ai_notes : String
  bg_status : String
  bg_id : String
  drug_status : String
  drug_id : String
  profile_status : String
  order_status : String
  recruiter_notes : String
  g : Bool
  m : Bool
  g_date : String
  m_date : String
  status : String
  intake_date : String
  updated : String
  flag : Bool
  flag_details : String
  flag_date : String
  resume_filename : Option String
  deriving DecidableEq

/-- One row of the client snapshot, as produced by the SELECT of
`load_candidates` in client_dashboard.py. `created_at` is selected
without `COALESCE` and stays `Option`-valued. -/
structure ClientRow where
  first_name : String
  last_name : String
  fedex_id : String
  rwp_score : ℚ
  rwp_classification : String
  rwp_rationale : String
  profile_status : String
  background_status : String
  drug_test_status : String
  g : Bool
  m : Bool
  phone : String
  email : String
  created_at : Option String
  deriving DecidableEq

/-- The projection of one store row performed by the recruiter query:
each `COALESCE(c, d)` becomes `Option.getD`, columns selected bare pass
through unchanged. -/
def loadRow (r : DbCandidate) : Candidate :=
  { id := r.id
    first_name := r.first_name
    last_name := r.last_name
    client_id := r.client_id
    email := r.email
    phone := r.phone
    fedex_id := r.fedex_id.getD ""
    initiated := r.application_date.getD ""
    rwp_score := r.rwp_score.getD 0
    rwp_classification := r.rwp_classification.getD "N/A"
    ai_notes := r.resume_notes.getD ""
    bg_status := r.background_status.getD "Not Started"
    bg_id := r.background_id.getD ""
    drug_status := r.drug_test_status.getD "Not Started"
    drug_id := r.drug_test_id.getD ""
    profile_status := r.profile_status.getD "Not Started"
    order_status := r.legacy_order_status.getD "Not Started"
    recruiter_notes := r.recruiter_notes.getD ""
    g := r.gcic_uploaded.getD false
    m := r.mec_uploaded.getD false
    g_date := r.gcic_upload_date.getD ""
    m_date := r.mec_upload_date.getD ""
    status := r.status.getD "new"
    intake_date := r.intake_date.getD ""
    updated := r.updated_at.getD ""
    flag := r.fadv_change_flag.getD false
    flag_details := r.fadv_change_details.getD ""
    flag_date := r.fadv_last_updated.getD ""
    resume_filename := r.resume_filename }

/-- The projection of one store row performed by the client query. -/
def clientRowOf (r : DbCandidate) : ClientRow :=
  { first_name := r.first_name
    last_name := r.last_name
    fedex_id := r.fedex_id.getD ""
    rwp_score := r.rwp_score.getD 0
    rwp_classification := r.rwp_classification.getD ""
    rwp_rationale := r.rwp_rationale.getD ""
    profile_status := r.profile_status.getD ""
    background_status := r.background_status.getD ""
    drug_test_status := r.drug_test_status.getD ""
    g := r.gcic_uploaded.getD false
    m := r.mec_uploaded.getD false
    phone := r.phone.getD ""
    email := r.email.getD ""
    created_at := r.created_at }

/-- Insertion step of a stable sort, used to model the SQL ORDER BY. -/
def insertBy (le : α → α → Bool) (a : α) : List α → List α
  | [] => [a]
  | b :: l => if le a b then a :: b :: l else b :: insertBy le a l

/-- Stable insertion sort used to model the SQL ORDER BY clauses. -/
def sortBy (le : α → α → Bool) : List α → List α
  | [] => []
  | a :: l => insertBy le a (sortBy le l)

theorem mem_insertBy (le : α → α → Bool) (a x : α) (l : List α) :
    x ∈ insertBy le a l ↔ x = a ∨ x ∈ l := by
  induction l with
  | nil => simp [insertBy]
  | cons b l ih =>
    simp only [insertBy]
    split
    · simp
    · simp [ih, List.mem_cons]
      tauto

theorem mem_sortBy (le : α → α → Bool) (x : α) (l : List α) :
    x ∈ sortBy le l ↔ x ∈ l := by
  induction l with
  | nil => simp [sortBy]
  | cons a l ih => simp [sortBy, mem_insertBy, ih]

/-- Sort rank of `fadv_change_flag` for the recruiter ORDER BY. -/
def flagRank (r : DbCandidate) : Nat :=
  if r.fadv_change_flag = some true then 1 else 0

/-- Comparator for `ORDER BY fadv_change_flag DESC, intake_date DESC`. -/
def recruiterLe (a b : DbCandidate) : Bool :=
  decide (flagRank b < flagRank a) ||
    (flagRank a == flagRank b &&
      decide ((b.intake_date.getD "") ≤ (a.intake_date.getD "")))

/-- Comparator for the client query `ORDER BY created_at DESC`. -/
def clientLe (a b : DbCandidate) : Bool :=
  decide ((b.created_at.getD "") ≤ (a.created_at.getD ""))

/-- Recruiter `load_candidates`: when no connection can be obtained
(`get_connection` returned None because the database is not configured)
the function returns an empty frame; otherwise the query projects and
orders the store. -/
def load_candidates_full (configured : Bool) (db : List DbCandidate) :
    List Candidate :=
  if configured then (sortBy recruiterLe db).map loadRow else []

/-- The WHERE and ORDER BY of the client query. -/
def clientQuery (db : List DbCandidate) (c : String) : List DbCandidate :=
  sortBy clientLe (db.filter (fun r => r.client_id == c))

/-- Client `load_candidates(client_id)`: empty frame when the engine is
not configured, otherwise the scoped, ordered projection. -/
def load_candidates_client (configured : Bool) (db : List DbCandidate)
    (c : String) : List ClientRow :=
  if configured then (clientQuery db c).map clientRowOf else []

/-! ## Field-scoped writes (recruiter_dashboard.py)

Each Python update function is modelled in two layers: a `..._db` core
carrying the SQL UPDATE over the store rows, and a wrapper taking the
`configured` flag for the `if not conn: return` guard, which leaves the
store untouched and returns no error value. `now` stands for the SQL
`NOW()` timestamp. -/

/-- Row effect of `update_candidate_notes`: sets the notes, zeroes
`fadv_change_flag`, stamps `updated_at`. -/
def notesRowUpd (i : Nat) (notes now : String) (r : DbCandidate) :
    DbCandidate :=
  if r.id = i then
    { r with recruiter_notes := some notes
             fadv_change_flag := some false
             updated_at := some now }
  else r

def update_candidate_notes_db (db : List DbCandidate) (i : Nat)
    (notes now : String) : List DbCandidate :=
  db.map (notesRowUpd i notes now)

def update_candidate_notes (configured : Bool) (db : List DbCandidate)
    (i : Nat) (notes now : String) : List DbCandidate :=
  if configured then update_candidate_notes_db db i notes now else db

/-- Row effect of `clear_fadv_flag`. -/
def clearFlagRowUpd (i : Nat) (now : String) (r : DbCandidate) :
    DbCandidate :=
  if r.id = i then
    { r with fadv_change_flag := some false, updated_at := some now }
  else r

def clear_fadv_flag_db (db : List DbCandidate) (i : Nat) (now : String) :
    List DbCandidate :=
  db.map (clearFlagRowUpd i now)

def clear_fadv_flag (configured : Bool) (db : List DbCandidate) (i : Nat)
    (now : String) : List DbCandidate :=
  if configured then clear_fadv_flag_db db i now else db

/-- Row effect of `update_candidate_status`. -/
def statusRowUpd (i : Nat) (s now : String) (r : DbCandidate) :
    DbCandidate :=
  if r.id = i then { r with status := some s, updated_at := some now }
  else r

def update_candidate_status_db (db : List DbCandidate) (i : Nat)
    (s now : String) : List DbCandidate :=
  db.map (statusRowUpd i s now)

def update_candidate_status (configured : Bool) (db : List DbCandidate)
    (i : Nat) (s now : String) : List DbCandidate :=
  if configured then update_candidate_status_db db i s now else db

/-- Row effect of `update_gcic`: `uploaded = 1 if checked else 0`,
`upload_date = now if checked else None`. -/
def gcicRowUpd (i : Nat) (checked : Bool) (now : String)
    (r : DbCandidate) : DbCandidate :=
  if r.id = i then
    { r with gcic_uploaded := some checked
             gcic_upload_date := if checked then some now else none
             updated_at := some now }
  else r

def update_gcic_db (db : List DbCandidate) (i : Nat) (checked : Bool)
    (now : String) : List DbCandidate :=
  db.map (gcicRowUpd i checked now)

def update_gcic (configured : Bool) (db : List DbCandidate) (i : Nat)
    (checked : Bool) (now : String) : List DbCandidate :=
  if configured then update_gcic_db db i checked now else db

/-- Row effect of `update_mec`, same shape as `update_gcic`. -/
def mecRowUpd (i : Nat) (checked : Bool) (now : String)
    (r : DbCandidate) : DbCandidate :=
  if r.id = i then
    { r with mec_uploaded := some checked
             mec_upload_date := if checked then some now else none
             updated_at := some now }
  else r

def update_mec_db (db : List DbCandidate) (i : Nat) (checked : Bool)
    (now : String) : List DbCandidate :=
  db.map (mecRowUpd i checked now)

def update_mec (configured : Bool) (db : List DbCandidate) (i : Nat)
    (checked : Bool) (now : String) : List DbCandidate :=
  if configured then update_mec_db db i checked now else db

/-- Row effect of `update_fedex_id`: the bound value is
`fedex_id if fedex_id else None`, so the empty string stores NULL. -/
def fedexRowUpd (i : Nat) (fx now : String) (r : DbCandidate) :
    DbCandidate :=
  if r.id = i then
    { r with fedex_id := if fx = "" then none else some fx
             updated_at := some now }
  else r

def update_fedex_id_db (db : List DbCandidate) (i : Nat) (fx now : String) :
    List DbCandidate :=
  db.map (fedexRowUpd i fx now)

def update_fedex_id (configured : Bool) (db : List DbCandidate) (i : Nat)
    (fx now : String) : List DbCandidate :=
  if configured then update_fedex_id_db db i fx now else db

/-! ## Filter engine (recruiter_dashboard.py, main, lines 268-328)

The pipeline applies ten stages in source order: search, client, RWP
range, recruiting status, order status, profile status, background
status, drug status, flagged-only, and the G/M form toggles. Each stage
is a conditional `List.filter`. -/

/-- The sidebar filter state. -/
structure FilterConfig where
  search : String
  client_filter : String
  rwp_lo : ℚ
  rwp_hi : ℚ
  status_filter : String
  order_filter : String
  profile_filter : String
  bg_filter : String
  drug_filter : String
  show_flagged_only : Bool
  show_g : Bool
  show_no_g : Bool
  show_m : Bool
  show_no_m : Bool
  deriving DecidableEq

/-- Conditional filter: the shape of every pipeline stage. -/
def filterIf (b : Bool) (p : Candidate → Bool) (l : List Candidate) :
    List Candidate :=
  if b then l.filter p else l

/-- Case-insensitive substring test, modelling
`Series.str.contains(needle, case=False)` on one value. -/
def containsCI (hay needle : String) : Bool :=
  (hay.toLower.splitOn needle.toLower).length != 1

/-- The search mask over the five searched columns; a missing (NULL)
email or phone matches nothing (`na=False`). -/
def searchPred (s : String) (r : Candidate) : Bool :=
  containsCI r.first_name s || containsCI r.last_name s ||
    (match r.email with | none => false | some e => containsCI e s) ||
    (match r.phone with | none => false | some p => containsCI p s) ||
    containsCI r.client_id s

def searchStage (cfg : FilterConfig) (df : List Candidate) :
    List Candidate :=
  filterIf (cfg.search != "") (searchPred cfg.search) df

def clientStage (cfg : FilterConfig) (df : List Candidate) :
    List Candidate :=
  filterIf (cfg.client_filter != "All")
    (fun r => r.client_id == cfg.client_filter) df

def rwpStage (cfg : FilterConfig) (df : List Candidate) : List Candidate :=
  filterIf true
    (fun r => decide (cfg.rwp_lo ≤ r.rwp_score) &&
      decide (r.rwp_score ≤ cfg.rwp_hi)) df

def statusStage (cfg : FilterConfig) (df : List Candidate) :
    List Candidate :=
  filterIf (cfg.status_filter != "All")
    (fun r => r.status == cfg.status_filter) df

def orderStage (cfg : FilterConfig) (df : List Candidate) :
    List Candidate :=
  filterIf (cfg.order_filter != "All")
    (fun r => r.order_status == cfg.order_filter) df

def profileStage (cfg : FilterConfig) (df : List Candidate) :
    List Candidate :=
  filterIf (cfg.profile_filter != "All")
    (fun r => r.profile_status == cfg.profile_filter) df

def bgStage (cfg : FilterConfig) (df : List Candidate) : List Candidate :=
  filterIf (cfg.bg_filter != "All") (fun r => r.bg_status == cfg.bg_filter)
    df

def drugStage (cfg : FilterConfig) (df : List Candidate) : List Candidate :=
  filterIf (cfg.drug_filter != "All")
    (fun r => r.drug_status == cfg.drug_filter) df

def flagStage (cfg : FilterConfig) (df : List Candidate) : List Candidate :=
  filterIf cfg.show_flagged_only (fun r => r.flag) df

/-- The list `g_m_conditions` built for one row: one Boolean per enabled
toggle, in source order. -/
def gmConditions (cfg : FilterConfig) (r : Candidate) : List Bool :=
  (if cfg.show_g then [r.g] else []) ++
    (if cfg.show_no_g then [!r.g] else []) ++
    (if cfg.show_m then [r.m] else []) ++
    (if cfg.show_no_m then [!r.m] else [])

/-- `if g_m_conditions:` — the list is nonempty exactly when at least one
of the four toggles is enabled (it does not depend on the rows). -/
def gmActive (cfg : FilterConfig) : Bool :=
  cfg.show_g || cfg.show_no_g || cfg.show_m || cfg.show_no_m

/-- The G/M stage: rows satisfying ANY enabled condition are kept; with
no enabled toggle no filtering happens at all. -/
def gmStage (cfg : FilterConfig) (df : List Candidate) : List Candidate :=
  filterIf (gmActive cfg) (fun r => (gmConditions cfg r).any id) df

/-- The full filter pipeline of the recruiter view, stages composed in
source order. -/
def applyFilters (cfg : FilterConfig) (df : List Candidate) :
    List Candidate :=
  gmStage cfg (flagStage cfg (drugStage cfg (bgStage cfg (profileStage cfg
    (orderStage cfg (statusStage cfg (rwpStage cfg (clientStage cfg
      (searchStage cfg df)))))))))

/-! ## Aggregation layer and the stats row (lines 330-345) -/

/-- Average RWP of the rows with positive score:
`filtered[filtered.rwp_score > 0].rwp_score.mean()`, rendered as N/A
(here `none`) when the restricted set is empty (pandas returns NaN). -/
def avgRwp (df : List Candidate) : Option ℚ :=
  let pos := df.filter (fun r => decide (0 < r.rwp_score))
  if pos.isEmpty then none
  else some (((pos.map (fun r => r.rwp_score)).sum) / (pos.length : ℚ))

/-- The four metrics of the stats row. -/
structure StatsRow where
  total : Nat
  showing : Nat
  avg_rwp : Option ℚ
  fadv_changes : Nat
  deriving DecidableEq

/-- The stats row as computed in `main`: Total over `df`, Showing over
`filtered_df`, Avg RWP over `filtered_df`, FADV Changes over `df`. -/
def statsRow (df : List Candidate) (cfg : FilterConfig) : StatsRow :=
  let filtered := applyFilters cfg df
  { total := df.length
    showing := filtered.length
    avg_rwp := avgRwp filtered
    fadv_changes := (df.filter (fun r => r.flag)).length }

/-! ## Display projection and the diff-and-save pass (lines 360-487) -/

/-- Python `str.strip()`: drop leading and trailing whitespace,
written over the character list so it evaluates by reduction. -/
def pyStrip (s : String) : String :=
  ⟨List.reverse (List.dropWhile Char.isWhitespace
    (List.reverse (List.dropWhile Char.isWhitespace s.data)))⟩

/-- Truncation applied to the Notes column for table display:
`(x[:50] + "...") if len(str(x)) > 50 else x`, written over the
character list so it evaluates by reduction. -/
def truncNotes (s : String) : String :=
  if 50 < s.data.length then String.mk (s.data.take 50) ++ "..." else s

/-- The editable columns of one `data_editor` row, together with the
hidden raw reference columns inserted alongside. -/
structure EditedRow where
  id : Nat
  g_raw : Bool
  m_raw : Bool
  notes : String
  fedex : String
  g : Bool
  m : Bool
  deriving DecidableEq

/-- The row shown in the editor before any user edit: notes truncated
for display, FedEx ID verbatim, G/M as booleans, raw copies hidden. -/
def displayRow (r : Candidate) : EditedRow :=
  { id := r.id
    g_raw := r.g
    m_raw := r.m
    notes := truncNotes r.recruiter_notes
    fedex := r.fedex_id
    g := r.g
    m := r.m }

/-- One detected change, in the order the loop checks fields. -/
inductive FieldChange where
  | notes (id : Nat) (new : String)
  | fedex (id : Nat) (new : String)
  | gcic (id : Nat) (new : Bool)
  | mec (id : Nat) (new : Bool)
  deriving DecidableEq

/-- Normalization applied before comparison: `str(...).strip()`, then
the literal placeholder "nan" becomes the empty string. -/
def normNan (s : String) : String :=
  if pyStrip s = "nan" then "" else pyStrip s

/-- The changes the save loop detects for one row: notes compared
against the FULL original notes, FedEx ID against the original, and the
G/M checkboxes against the hidden raw copies. -/
def rowChanges (orig : Candidate) (e : EditedRow) : List FieldChange :=
  (if normNan e.notes != normNan orig.recruiter_notes then
    [FieldChange.notes e.id (normNan e.notes)] else []) ++
  (if normNan e.fedex != normNan orig.fedex_id then
    [FieldChange.fedex e.id (normNan e.fedex)] else []) ++
  (if e.g != e.g_raw then [FieldChange.gcic e.id e.g] else []) ++
  (if e.m != e.m_raw then [FieldChange.mec e.id e.m] else [])

/-- The whole diff pass: rows of the shown subset and of the edited
table are compared positionally. -/
def diffPass (subset : List Candidate) (edited : List EditedRow) :
    List FieldChange :=
  (subset.zip edited).flatMap (fun p => rowChanges p.1 p.2)

/-- Each detected change issues exactly one field-scoped write. -/
def writeOfChange (now : String) (db : List DbCandidate) :
    FieldChange → List DbCandidate
  | FieldChange.notes i v => update_candidate_notes_db db i v now
  | FieldChange.fedex i v => update_fedex_id_db db i v now
  | FieldChange.gcic i v => update_gcic_db db i v now
  | FieldChange.mec i v => update_mec_db db i v now

/-- The writes issued by one diff pass, one per change, in order. -/
def writesIssued (subset : List Candidate) (edited : List EditedRow) :
    List FieldChange :=
  diffPass subset edited

/-! ## Client view (client_dashboard.py, main) -/

/-- One registry entry from client_registry.json. -/
structure ClientInfo where
  dashboard_title : Option String
  display_name : Option String
  name : Option String
  deriving DecidableEq

/-- Display-name resolution: dashboard_title, then display_name, then
name, then the upper-cased identifier. -/
def get_client_display_name (cid : String)
    (registry : List (String × ClientInfo)) : String :=
  let info := (registry.lookup cid).getD ⟨none, none, none⟩
  info.dashboard_title.getD (info.display_name.getD
    (info.name.getD cid.toUpper))

/-- The outcomes of one render of the client view. -/
inductive ClientView where
  | noClient
  | unknownClient (cid : String)
  | noData (cid : String)
  | dashboard (cid : String) (rows : List ClientRow)
  deriving DecidableEq

/-- Candidate rows the view exposes in each outcome. -/
def rowsShown : ClientView → List ClientRow
  | ClientView.noClient => []
  | ClientView.unknownClient _ => []
  | ClientView.noData _ => []
  | ClientView.dashboard _ rows => rows

/-- The two blocking error outcomes rendered before any data loads. -/
def isErrorState : ClientView → Bool
  | ClientView.noClient => true
  | ClientView.unknownClient _ => true
  | ClientView.noData _ => false
  | ClientView.dashboard _ _ => false

/-- `main` of the client dashboard up to the table render: a missing or
empty identifier stops with the no-client message, an identifier absent
from the registry stops with the unknown-client message, and only then
is the store queried. -/
def clientMain (param : Option String)
    (registry : List (String × ClientInfo)) (configured : Bool)
    (db : List DbCandidate) : ClientView :=
  match param with
  | none => ClientView.noClient
  | some c =>
    if c = "" then ClientView.noClient
    else if (registry.lookup c).isNone then ClientView.unknownClient c
    else
      let df := load_candidates_client configured db c
      if df.isEmpty then ClientView.noData c
      else ClientView.dashboard c df

/-! ## Generic facts about the pipeline stages -/

theorem filterIf_sublist (b : Bool) (p : Candidate → Bool)
    (l : List Candidate) : List.Sublist (filterIf b p l) l := by
  cases b with
  | false => exact List.Sublist.refl l
  | true =>
    simp only [filterIf, if_true]
    exact List.filter_sublist l

theorem filterIf_subset_mono {l1 l2 : List Candidate} {b : Bool}
    {p : Candidate → Bool} (h : l1 ⊆ l2) :
    filterIf b p l1 ⊆ filterIf b p l2 := by
  cases b with
  | false => simpa [filterIf] using h
  | true =>
    simp only [filterIf, if_pos]
    intro a ha
    rw [List.mem_filter] at ha ⊢
    exact ⟨h ha.1, ha.2⟩

/-- The filtered subset is a subsequence of the snapshot: every stage is
a `List.filter` or the identity, and sublists compose. -/
theorem applyFilters_sublist (cfg : FilterConfig) (df : List Candidate) :
    List.Sublist (applyFilters cfg df) df := by
  have h1 : List.Sublist (searchStage cfg df) df := filterIf_sublist _ _ _
  have h2 : List.Sublist (clientStage cfg (searchStage cfg df)) df :=
    (filterIf_sublist _ _ _).trans h1
  have h3 : List.Sublist (rwpStage cfg (clientStage cfg
      (searchStage cfg df))) df :=
    (filterIf_sublist _ _ _).trans h2
  have h4 : List.Sublist (statusStage cfg (rwpStage cfg (clientStage cfg
      (searchStage cfg df)))) df :=
    (filterIf_sublist _ _ _).trans h3
  have h5 : List.Sublist (orderStage cfg (statusStage cfg (rwpStage cfg
      (clientStage cfg (searchStage cfg df))))) df :=
    (filterIf_sublist _ _ _).trans h4
  have h6 : List.Sublist (profileStage cfg (orderStage cfg (statusStage cfg
      (rwpStage cfg (clientStage cfg (searchStage cfg df)))))) df :=
    (filterIf_sublist _ _ _).trans h5
  have h7 : List.Sublist (bgStage cfg (profileStage cfg (orderStage cfg
      (statusStage cfg (rwpStage cfg (clientStage cfg
        (searchStage cfg df))))))) df :=
    (filterIf_sublist _ _ _).trans h6
  have h8 : List.Sublist (drugStage cfg (bgStage cfg (profileStage cfg
      (orderStage cfg (statusStage cfg (rwpStage cfg (clientStage cfg
        (searchStage cfg df)))))))) df :=
    (filterIf_sublist _ _ _).trans h7
  have h9 : List.Sublist (flagStage cfg (drugStage cfg (bgStage cfg
      (profileStage cfg (orderStage cfg (statusStage cfg (rwpStage cfg
        (clientStage cfg (searchStage cfg df))))))))) df :=
    (filterIf_sublist _ _ _).trans h8
  exact (filterIf_sublist _ _ _).trans h9

/-! ## Disabling one predicate of the configuration -/

def disableSearch (cfg : FilterConfig) : FilterConfig :=
  { cfg with search := "" }

def disableClient (cfg : FilterConfig) : FilterConfig :=
  { cfg with client_filter := "All" }

def disableStatus (cfg : FilterConfig) : FilterConfig :=
  { cfg with status_filter := "All" }

def disableOrder (cfg : FilterConfig) : FilterConfig :=
  { cfg with order_filter := "All" }

def disableProfile (cfg : FilterConfig) : FilterConfig :=
  { cfg with profile_filter := "All" }

def disableBg (cfg : FilterConfig) : FilterConfig :=
  { cfg with bg_filter := "All" }

def disableDrug (cfg : FilterConfig) : FilterConfig :=
  { cfg with drug_filter := "All" }

def disableFlagged (cfg : FilterConfig) : FilterConfig :=
  { cfg with show_flagged_only := false }

theorem subset_disableSearch (cfg : FilterConfig) (df : List Candidate) :
    applyFilters cfg df ⊆ applyFilters (disableSearch cfg) df := by
  have key : applyFilters (disableSearch cfg) df =
      gmStage cfg (flagStage cfg (drugStage cfg (bgStage cfg
        (profileStage cfg (orderStage cfg (statusStage cfg (rwpStage cfg
          (clientStage cfg df)))))))) := rfl
  rw [key, applyFilters]
  apply filterIf_subset_mono
  apply filterIf_subset_mono
  apply filterIf_subset_mono
  apply filterIf_subset_mono
  apply filterIf_subset_mono
  apply filterIf_subset_mono
  apply filterIf_subset_mono
  apply filterIf_subset_mono
  apply filterIf_subset_mono
  exact (filterIf_sublist _ _ _).subset

theorem subset_disableClient (cfg : FilterConfig) (df : List Candidate) :
    applyFilters cfg df ⊆ applyFilters (disableClient cfg) df := by
  have key : applyFilters (disableClient cfg) df =
      gmStage cfg (flagStage cfg (drugStage cfg (bgStage cfg
        (profileStage cfg (orderStage cfg (statusStage cfg (rwpStage cfg
          (searchStage cfg df)))))))) := rfl
  rw [key, applyFilters]
  apply filterIf_subset_mono
  apply filterIf_subset_mono
  apply filterIf_subset_mono
  apply filterIf_subset_mono
  apply filterIf_subset_mono
  apply filterIf_subset_mono
  apply filterIf_subset_mono
  apply filterIf_subset_mono
  exact (filterIf_sublist _ _ _).subset

theorem subset_disableStatus (cfg : FilterConfig) (df : List Candidate) :
    applyFilters cfg df ⊆ applyFilters (disableStatus cfg) df := by
  have key : applyFilters (disableStatus cfg) df =
      gmStage cfg (flagStage cfg (drugStage cfg (bgStage cfg
        (profileStage cfg (orderStage cfg (rwpStage cfg (clientStage cfg
          (searchStage cfg df)))))))) := rfl
  rw [key, applyFilters]
  apply filterIf_subset_mono
  apply filterIf_subset_mono
  apply filterIf_subset_mono
  apply filterIf_subset_mono
  apply filterIf_subset_mono
  apply filterIf_subset_mono
  exact (filterIf_sublist _ _ _).subset

theorem subset_disableOrder (cfg : FilterConfig) (df : List Candidate) :
    applyFilters cfg df ⊆ applyFilters (disableOrder cfg) df := by
  have key : applyFilters (disableOrder cfg) df =
      gmStage cfg (flagStage cfg (drugStage cfg (bgStage cfg
        (profileStage cfg (statusStage cfg (rwpStage cfg (clientStage cfg
          (searchStage cfg df)))))))) := rfl
  rw [key, applyFilters]
  apply filterIf_subset_mono
  apply filterIf_subset_mono
  apply filterIf_subset_mono
  apply filterIf_subset_mono
  apply filterIf_subset_mono
  exact (filterIf_sublist _ _ _).subset

theorem subset_disableProfile (cfg : FilterConfig) (df : List Candidate) :
    applyFilters cfg df ⊆ applyFilters (disableProfile cfg) df := by
  have key : applyFilters (disableProfile cfg) df =
      gmStage cfg (flagStage cfg (drugStage cfg (bgStage cfg
        (orderStage cfg (statusStage cfg (rwpStage cfg (clientStage cfg
          (searchStage cfg df)))))))) := rfl
  rw [key, applyFilters]
  apply filterIf_subset_mono
  apply filterIf_subset_mono
  apply filterIf_subset_mono
  apply filterIf_subset_mono
  exact (filterIf_sublist _ _ _).subset

theorem subset_disableBg (cfg : FilterConfig) (df : List Candidate) :
    applyFilters cfg df ⊆ applyFilters (disableBg cfg) df := by
  have key : applyFilters (disableBg cfg) df =
      gmStage cfg (flagStage cfg (drugStage cfg (profileStage cfg
        (orderStage cfg (statusStage cfg (rwpStage cfg (clientStage cfg
          (searchStage cfg df)))))))) := rfl
  rw [key, applyFilters]
  apply filterIf_subset_mono
  apply filterIf_subset_mono
  apply filterIf_subset_mono
  exact (filterIf_sublist _ _ _).subset

theorem subset_disableDrug (cfg : FilterConfig) (df : List Candidate) :
    applyFilters cfg df ⊆ applyFilters (disableDrug cfg) df := by
  have key : applyFilters (disableDrug cfg) df =
      gmStage cfg (flagStage cfg (bgStage cfg (profileStage cfg
        (orderStage cfg (statusStage cfg (rwpStage cfg (clientStage cfg
          (searchStage cfg df)))))))) := rfl
  rw [key, applyFilters]
  apply filterIf_subset_mono
  apply filterIf_subset_mono
  exact (filterIf_sublist _ _ _).subset

theorem subset_disableFlagged (cfg : FilterConfig) (df : List Candidate) :
    applyFilters cfg df ⊆ applyFilters (disableFlagged cfg) df := by
  have key : applyFilters (disableFlagged cfg) df =
      gmStage cfg (drugStage cfg (bgStage cfg (profileStage cfg
        (orderStage cfg (statusStage cfg (rwpStage cfg (clientStage cfg
          (searchStage cfg df)))))))) := rfl
  rw [key, applyFilters]
  apply filterIf_subset_mono
  exact (filterIf_sublist _ _ _).subset

/-! ## Concrete fixtures used by counterexamples and witnesses -/

/-- A store row whose nullable columns are all NULL. -/
def dbNull : DbCandidate :=
  { id := 1
    first_name := "Ada"
    last_name := "L"
    client_id := "cbm"
    email := none
    phone := none
    fedex_id := none
    application_date := none
    rwp_score := none
    rwp_classification := none
    rwp_rationale := none
    resume_notes := none
    background_status := none
    background_id := none
    drug_test_status := none
    drug_test_id := none
    profile_status := none
    legacy_order_status := none
    recruiter_notes := none
    gcic_uploaded := none
    mec_uploaded := none
    gcic_upload_date := none
    mec_upload_date := none
    status := none
    intake_date := none
    created_at := none
    updated_at := none
    fadv_change_flag := none
    fadv_change_details := none
    fadv_last_updated := none
    resume_filename := none }

/-- A flagged store row. -/
def dbFlagged : DbCandidate :=
  { dbNull with id := 7, fadv_change_flag := some true }

/-- A snapshot row with a mid-range score and both forms uploaded. -/
def candBase : Candidate :=
  { loadRow dbNull with rwp_score := 5, g := true, m := true }

/-- The sidebar in its neutral position: empty search, every selectbox
at All, full score range, flagged-only off, all four form toggles on. -/
def cfgNeutral : FilterConfig :=
  { search := ""
    client_filter := "All"
    rwp_lo := 0
    rwp_hi := 10
    status_filter := "All"
    order_filter := "All"
    profile_filter := "All"
    bg_filter := "All"
    drug_filter := "All"
    show_flagged_only := false
    show_g := true
    show_no_g := true
    show_m := true
    show_no_m := true }

/-- Neutral sidebar with all four form toggles disabled. -/
def cfgAllOffForms : FilterConfig :=
  { cfgNeutral with
    show_g := false, show_no_g := false, show_m := false, show_no_m := false }

/-- Neutral sidebar with only the has-G and missing-M toggles enabled. -/
def cfgGMix : FilterConfig :=
  { cfgNeutral with
    show_g := true, show_no_g := false, show_m := false, show_no_m := true }

/-- `cfgGMix` with one more predicate (the has-G toggle) disabled. -/
def cfgGMix2 : FilterConfig := { cfgGMix with show_g := false }

/-! ## Claim C1 — the four form-state toggles -/

/-- Claim C1 counterexample: with all four form toggles disabled the
`g_m_conditions` list is empty, the guard `if g_m_conditions:` skips the
form filter entirely, and the filter yields the ORIGINAL set — not the
empty result the claim states. -/
theorem C1_counterexample :
    applyFilters cfgAllOffForms [candBase] = [candBase] ∧
      ([candBase] : List Candidate) ≠ [] := by
  constructor
  · decide
  · simp

/-- Claim C1 (amended): when all four form toggles are disabled the
form-state stage applies no filtering and yields the original set; when
all four are enabled it also yields the original set; whenever at least
one is enabled the stage keeps exactly the rows satisfying the inclusive
OR of the enabled options. -/
theorem C1_form_toggles (cfg : FilterConfig) (df : List Candidate) :
    (cfg.show_g = false → cfg.show_no_g = false → cfg.show_m = false →
      cfg.show_no_m = false → gmStage cfg df = df) ∧
    (cfg.show_g = true → cfg.show_no_g = true → cfg.show_m = true →
      cfg.show_no_m = true → gmStage cfg df = df) ∧
    (gmActive cfg = true →
      gmStage cfg df = df.filter (fun r => (gmConditions cfg r).any id)) := by
  refine ⟨?_, ?_, ?_⟩
  · intro h1 h2 h3 h4
    simp [gmStage, gmActive, h1, h2, h3, h4, filterIf]
  · intro h1 h2 h3 h4
    have ha : gmActive cfg = true := by simp [gmActive, h1]
    simp only [gmStage, ha, filterIf, if_true]
    apply List.filter_eq_self.mpr
    intro a _
    simp [gmConditions, h1, h2, h3, h4]
  · intro ha
    simp [gmStage, ha, filterIf]

/-- Witness for C1: the three modes at concrete inputs. -/
theorem C1_form_toggles_witness :
    gmStage cfgAllOffForms [candBase] = [candBase] ∧
      gmStage cfgNeutral [candBase] = [candBase] ∧
      gmStage cfgNeutral [candBase] =
        List.filter (fun r => (gmConditions cfgNeutral r).any id)
          [candBase] :=
  ⟨(C1_form_toggles cfgAllOffForms [candBase]).1 rfl rfl rfl rfl,
   (C1_form_toggles cfgNeutral [candBase]).2.1 rfl rfl rfl rfl,
   (C1_form_toggles cfgNeutral [candBase]).2.2 rfl⟩

/-! ## Claim C3 — subsequence and relaxation monotonicity -/

/-- Claim C3 counterexample: disabling one more predicate can EXCLUDE
rows. With has-G and missing-M enabled, a row with G and M set passes
(it satisfies has-G); disabling the has-G toggle leaves only missing-M
enabled, which the row fails, so it drops out of the relaxed result. -/
theorem C3_counterexample :
    candBase ∈ applyFilters cfgGMix [candBase] ∧
      candBase ∉ applyFilters cfgGMix2 [candBase] := by
  constructor
  · decide
  · decide

/-- Claim C3 (amended): the filtered subset is always a subsequence of
the snapshot in original order, and disabling any one of the AND-combined
predicates (search, client, recruiting status, order status, profile
status, background status, drug status, flagged-only) never excludes a
row; the inclusion fails only for the OR-combined form toggles. -/
theorem C3_filter_monotone (cfg : FilterConfig) (df : List Candidate) :
    List.Sublist (applyFilters cfg df) df ∧
    applyFilters cfg df ⊆ applyFilters (disableSearch cfg) df ∧
    applyFilters cfg df ⊆ applyFilters (disableClient cfg) df ∧
    applyFilters cfg df ⊆ applyFilters (disableStatus cfg) df ∧
    applyFilters cfg df ⊆ applyFilters (disableOrder cfg) df ∧
    applyFilters cfg df ⊆ applyFilters (disableProfile cfg) df ∧
    applyFilters cfg df ⊆ applyFilters (disableBg cfg) df ∧
    applyFilters cfg df ⊆ applyFilters (disableDrug cfg) df ∧
    applyFilters cfg df ⊆ applyFilters (disableFlagged cfg) df :=
  ⟨applyFilters_sublist cfg df, subset_disableSearch cfg df,
   subset_disableClient cfg df, subset_disableStatus cfg df,
   subset_disableOrder cfg df, subset_disableProfile cfg df,
   subset_disableBg cfg df, subset_disableDrug cfg df,
   subset_disableFlagged cfg df⟩

/-! ## Claim C9 — average RWP over the positive-score rows -/

/-- Claim C9: the average-RWP metric is the mean of `rwp_score` over
exactly the rows with positive score; it is the N/A state exactly when
no row has positive score; and on a three-row subset with one zero
score it is the mean of the other two scores, not the sum over three. -/
theorem C9_avg_rwp (df : List Candidate) :
    (avgRwp df = none ↔
      df.filter (fun r => decide (0 < r.rwp_score)) = []) ∧
    (df.filter (fun r => decide (0 < r.rwp_score)) ≠ [] →
      avgRwp df = some
        ((((df.filter (fun r => decide (0 < r.rwp_score))).map
          (fun r => r.rwp_score)).sum) /
          ((df.filter (fun r => decide (0 < r.rwp_score))).length : ℚ))) ∧
    (∀ a b c : Candidate, 0 < a.rwp_score → 0 < b.rwp_score →
      c.rwp_score = 0 →
      avgRwp [a, b, c] = some ((a.rwp_score + b.rwp_score) / 2)) := by
  refine ⟨?_, ?_, ?_⟩
  · simp only [avgRwp]
    by_cases h : (df.filter (fun r => decide (0 < r.rwp_score))).isEmpty
    · simp [h, List.isEmpty_iff.mp h]
    · have h2 : ¬ df.filter (fun r => decide (0 < r.rwp_score)) = [] := by
        intro he
        exact h (by simp [he])
      simp [h, h2]
  · intro h
    have h2 : ¬ (df.filter (fun r => decide (0 < r.rwp_score))).isEmpty := by
      simpa [List.isEmpty_iff] using h
    simp [avgRwp, h2]
  · intro a b c h1 h2 h3
    have h3d : decide (0 < c.rwp_score) = false := by
      rw [h3]
      exact decide_eq_false (lt_irrefl 0)
    have hf : List.filter (fun r => decide (0 < r.rwp_score)) [a, b, c]
        = [a, b] := by
      simp [List.filter_cons, decide_eq_true h1, decide_eq_true h2, h3d]
    simp [avgRwp, hf]

/-- Three concrete rows: scores 4, 8 and 0. -/
def candA : Candidate := { candBase with rwp_score := 4 }

def candB : Candidate := { candBase with rwp_score := 8 }

def candC : Candidate := { candBase with rwp_score := 0 }

/-- Witness for C9 at the scenario input. -/
theorem C9_avg_rwp_witness :
    avgRwp [candA, candB, candC] = some
      (((([candA, candB, candC].filter
        (fun r => decide (0 < r.rwp_score))).map
          (fun r => r.rwp_score)).sum) /
        (([candA, candB, candC].filter
          (fun r => decide (0 < r.rwp_score))).length : ℚ)) ∧
    avgRwp [candA, candB, candC] =
      some ((candA.rwp_score + candB.rwp_score) / 2) :=
  ⟨(C9_avg_rwp [candA, candB, candC]).2.1 (by decide),
   (C9_avg_rwp [candA, candB, candC]).2.2 candA candB candC (by decide)
     (by decide) rfl⟩

/-! ## Claim C10 — scope of each stats-row metric -/

/-- Claim C10: Total Candidates and FADV Changes are computed over the
full unfiltered snapshot — they do not vary with the predicate set —
while Showing and Avg RWP are computed over the filtered subset. -/
theorem C10_stats_scope (df : List Candidate) (cfg cfg2 : FilterConfig) :
    (statsRow df cfg).total = df.length ∧
    (statsRow df cfg).fadv_changes =
      (df.filter (fun r => r.flag)).length ∧
    (statsRow df cfg).total = (statsRow df cfg2).total ∧
    (statsRow df cfg).fadv_changes = (statsRow df cfg2).fadv_changes ∧
    (statsRow df cfg).showing = (applyFilters cfg df).length ∧
    (statsRow df cfg).avg_rwp = avgRwp (applyFilters cfg df) :=
  ⟨rfl, rfl, rfl, rfl, rfl, rfl⟩

/-! ## Claim C2 — diff pass on an unedited table -/

/-- A snapshot row whose recruiter notes are 51 characters long, so the
table displays them truncated to 50 characters plus an ellipsis. -/
def candLong : Candidate :=
  { candBase with
    id := 9
    recruiter_notes := "aaaaaaaaaaaaaaaaaaaaaaaaaaaaaaaaaaaaaaaaaaaaaaaaaaa" }

set_option maxRecDepth 40000 in
/-- Claim C2 failing input: with no user edit at all (the edited table
is exactly the displayed table), the save loop compares the FULL
original notes against the TRUNCATED displayed copy, detects a spurious
difference on any notes longer than 50 characters, emits a notes
`FieldChange`, and issues a write that clobbers the stored notes with
the truncated text. -/
theorem C2_truncation_bug :
    diffPass [candLong] ([candLong].map displayRow) =
      [FieldChange.notes 9
        "aaaaaaaaaaaaaaaaaaaaaaaaaaaaaaaaaaaaaaaaaaaaaaaaaa..."] ∧
    writesIssued [candLong] ([candLong].map displayRow) ≠ [] := by
  constructor
  · decide
  · decide

/-! ## Claim C4 — the flag-clear side effect of each write -/

/-- Pointwise flag preservation lifts to the store map. -/
theorem map_flag_of_preserve (f : DbCandidate → DbCandidate)
    (hf : ∀ x, (f x).fadv_change_flag = x.fadv_change_flag)
    (db : List DbCandidate) :
    (db.map f).map DbCandidate.fadv_change_flag =
      db.map DbCandidate.fadv_change_flag := by
  induction db with
  | nil => rfl
  | cons x l ih => simp [hf x, ih]

theorem fedexRowUpd_flag (i : Nat) (fx now : String) (x : DbCandidate) :
    (fedexRowUpd i fx now x).fadv_change_flag = x.fadv_change_flag := by
  unfold fedexRowUpd
  split <;> rfl

theorem gcicRowUpd_flag (i : Nat) (checked : Bool) (now : String)
    (x : DbCandidate) :
    (gcicRowUpd i checked now x).fadv_change_flag = x.fadv_change_flag := by
  unfold gcicRowUpd
  split <;> rfl

theorem mecRowUpd_flag (i : Nat) (checked : Bool) (now : String)
    (x : DbCandidate) :
    (mecRowUpd i checked now x).fadv_change_flag = x.fadv_change_flag := by
  unfold mecRowUpd
  split <;> rfl

theorem statusRowUpd_flag (i : Nat) (s now : String) (x : DbCandidate) :
    (statusRowUpd i s now x).fadv_change_flag = x.fadv_change_flag := by
  unfold statusRowUpd
  split <;> rfl

/-- Claim C4: the notes write sets the notes and zeroes
`fadv_change_flag` in the same UPDATE, while the FedEx ID, GCIC, MEC and
status writes leave every row's `fadv_change_flag` unchanged. -/
theorem C4_flag_semantics (db : List DbCandidate) (r : DbCandidate)
    (hmem : r ∈ db) (_hflag : r.fadv_change_flag = some true)
    (notes fx s now : String) (checked : Bool) :
    ((notesRowUpd r.id notes now r).recruiter_notes = some notes ∧
      (notesRowUpd r.id notes now r).fadv_change_flag = some false ∧
      notesRowUpd r.id notes now r ∈
        update_candidate_notes_db db r.id notes now) ∧
    (update_fedex_id_db db r.id fx now).map DbCandidate.fadv_change_flag =
      db.map DbCandidate.fadv_change_flag ∧
    (update_gcic_db db r.id checked now).map DbCandidate.fadv_change_flag =
      db.map DbCandidate.fadv_change_flag ∧
    (update_mec_db db r.id checked now).map DbCandidate.fadv_change_flag =
      db.map DbCandidate.fadv_change_flag ∧
    (update_candidate_status_db db r.id s now).map
        DbCandidate.fadv_change_flag =
      db.map DbCandidate.fadv_change_flag := by
  refine ⟨⟨?_, ?_, ?_⟩, ?_, ?_, ?_, ?_⟩
  · simp [notesRowUpd]
  · simp [notesRowUpd]
  · exact List.mem_map_of_mem _ hmem
  · exact map_flag_of_preserve _ (fedexRowUpd_flag r.id fx now) db
  · exact map_flag_of_preserve _ (gcicRowUpd_flag r.id checked now) db
  · exact map_flag_of_preserve _ (mecRowUpd_flag r.id checked now) db
  · exact map_flag_of_preserve _ (statusRowUpd_flag r.id s now) db

/-- Witness for C4 on a one-row store whose record is flagged. -/
theorem C4_flag_semantics_witness :
    ((notesRowUpd dbFlagged.id "note" "t0" dbFlagged).recruiter_notes =
        some "note" ∧
      (notesRowUpd dbFlagged.id "note" "t0" dbFlagged).fadv_change_flag =
        some false ∧
      notesRowUpd dbFlagged.id "note" "t0" dbFlagged ∈
        update_candidate_notes_db [dbFlagged] dbFlagged.id "note" "t0") ∧
    (update_fedex_id_db [dbFlagged] dbFlagged.id "FX1" "t0").map
        DbCandidate.fadv_change_flag =
      [dbFlagged].map DbCandidate.fadv_change_flag ∧
    (update_gcic_db [dbFlagged] dbFlagged.id true "t0").map
        DbCandidate.fadv_change_flag =
      [dbFlagged].map DbCandidate.fadv_change_flag ∧
    (update_mec_db [dbFlagged] dbFlagged.id true "t0").map
        DbCandidate.fadv_change_flag =
      [dbFlagged].map DbCandidate.fadv_change_flag ∧
    (update_candidate_status_db [dbFlagged] dbFlagged.id "hired" "t0").map
        DbCandidate.fadv_change_flag =
      [dbFlagged].map DbCandidate.fadv_change_flag :=
  C4_flag_semantics [dbFlagged] dbFlagged (List.mem_singleton.mpr rfl) rfl
    "note" "FX1" "hired" "t0" true

/-! ## Claim C5 — null coercion performed by the two load queries -/

/-- What the recruiter query actually does to one source row: fields
selected through COALESCE get their per-field default (empty string for
freeform text and dates, a textual token for statuses and the
classification, 0 for the score, 0 for the boolean bits), while id,
names, client, email, phone and resume_filename pass through uncoerced. -/
def recruiterCoerced (src : DbCandidate) (row : Candidate) : Prop :=
  row.id = src.id ∧
  row.first_name = src.first_name ∧
  row.last_name = src.last_name ∧
  row.client_id = src.client_id ∧
  row.email = src.email ∧
  row.phone = src.phone ∧
  row.fedex_id = src.fedex_id.getD "" ∧
  row.initiated = src.application_date.getD "" ∧
  row.rwp_score = src.rwp_score.getD 0 ∧
  row.rwp_classification = src.rwp_classification.getD "N/A" ∧
  row.ai_notes = src.resume_notes.getD "" ∧
  row.bg_status = src.background_status.getD "Not Started" ∧
  row.bg_id = src.background_id.getD "" ∧
  row.drug_status = src.drug_test_status.getD "Not Started" ∧
  row.drug_id = src.drug_test_id.getD "" ∧
  row.profile_status = src.profile_status.getD "Not Started" ∧
  row.order_status = src.legacy_order_status.getD "Not Started" ∧
  row.recruiter_notes = src.recruiter_notes.getD "" ∧
  row.g = src.gcic_uploaded.getD false ∧
  row.m = src.mec_uploaded.getD false ∧
  row.g_date = src.gcic_upload_date.getD "" ∧
  row.m_date = src.mec_upload_date.getD "" ∧
  row.status = src.status.getD "new" ∧
  row.intake_date = src.intake_date.getD "" ∧
  row.updated = src.updated_at.getD "" ∧
  row.flag = src.fadv_change_flag.getD false ∧
  row.flag_details = src.fadv_change_details.getD "" ∧
  row.flag_date = src.fadv_last_updated.getD "" ∧
  row.resume_filename = src.resume_filename

/-- What the client query does to one source row: COALESCE defaults are
the empty string and 0 here, but `created_at` passes through uncoerced. -/
def clientCoerced (src : DbCandidate) (x : ClientRow) : Prop :=
  x.first_name = src.first_name ∧
  x.last_name = src.last_name ∧
  x.fedex_id = src.fedex_id.getD "" ∧
  x.rwp_score = src.rwp_score.getD 0 ∧
  x.rwp_classification = src.rwp_classification.getD "" ∧
  x.rwp_rationale = src.rwp_rationale.getD "" ∧
  x.profile_status = src.profile_status.getD "" ∧
  x.background_status = src.background_status.getD "" ∧
  x.drug_test_status = src.drug_test_status.getD "" ∧
  x.g = src.gcic_uploaded.getD false ∧
  x.m = src.mec_uploaded.getD false ∧
  x.phone = src.phone.getD "" ∧
  x.email = src.email.getD "" ∧
  x.created_at = src.created_at

/-- Claim C5 counterexample: an all-NULL source row loads with
`bg_status = "Not Started"` and `rwp_classification = "N/A"` — textual
placeholders, not the empty string the claim requires — and its
`resume_filename` is still NULL in the snapshot. -/
theorem C5_counterexample :
    (loadRow dbNull).bg_status = "Not Started" ∧
    (loadRow dbNull).bg_status ≠ "" ∧
    (loadRow dbNull).rwp_classification = "N/A" ∧
    (loadRow dbNull).resume_filename = none ∧
    loadRow dbNull ∈ load_candidates_full true [dbNull] ∧
    dbNull.background_status = none := by
  refine ⟨rfl, by decide, rfl, rfl, by decide, rfl⟩

/-- Claim C5 (amended): every loaded row is the per-field coercion of
some source row, with the defaults the queries actually use
(`recruiterCoerced` and `clientCoerced`), rather than a uniform
empty-string/zero coercion of every field. -/
theorem C5_null_coercion (db : List DbCandidate) (row : Candidate)
    (c : String) (x : ClientRow)
    (h1 : row ∈ load_candidates_full true db)
    (h2 : x ∈ load_candidates_client true db c) :
    (∃ src ∈ db, recruiterCoerced src row) ∧
    ∃ src ∈ db, clientCoerced src x := by
  constructor
  · simp only [load_candidates_full, if_true, List.mem_map] at h1
    obtain ⟨src, hs, he⟩ := h1
    refine ⟨src, (mem_sortBy _ _ _).mp hs, ?_⟩
    subst he
    simp [recruiterCoerced, loadRow]
  · simp only [load_candidates_client, if_true, List.mem_map] at h2
    obtain ⟨src, hs, he⟩ := h2
    have hs2 := List.mem_filter.mp ((mem_sortBy _ _ _).mp hs)
    refine ⟨src, hs2.1, ?_⟩
    subst he
    simp [clientCoerced, clientRowOf]

/-- Witness for C5 on a one-row store. -/
theorem C5_null_coercion_witness :
    (∃ src ∈ [dbFlagged], recruiterCoerced src (loadRow dbFlagged)) ∧
    ∃ src ∈ [dbFlagged], clientCoerced src (clientRowOf dbFlagged) :=
  C5_null_coercion [dbFlagged] (loadRow dbFlagged) "cbm"
    (clientRowOf dbFlagged) (by decide) (by decide)

/-! ## Claim C6 — behaviour when no store connection is available -/

/-- Claim C6 counterexample: with no connection the recruiter load
returns a plain empty snapshot — exactly the value a successful load of
an empty store returns, so no explicit store-unavailable error reaches
the caller — and a failed notes write returns with the store unchanged
and no error value. -/
theorem C6_counterexample :
    load_candidates_full false [dbFlagged] = ([] : List Candidate) ∧
    load_candidates_full true [] = ([] : List Candidate) ∧
    update_candidate_notes false [dbFlagged] 7 "x" "t0" = [dbFlagged] :=
  ⟨rfl, rfl, rfl⟩

/-- Claim C6 (amended): when the connection cannot be obtained, both
loads return the empty snapshot (indistinguishable from an empty store,
treated by the caller as no data) and every field-scoped write returns
silently, leaving the store unchanged — no partial effect, but also no
typed error. -/
theorem C6_unavailable_behavior (db : List DbCandidate) (i : Nat)
    (notes fx s now : String) (checked : Bool) :
    load_candidates_full false db = [] ∧
    (∀ c, load_candidates_client false db c = []) ∧
    update_candidate_notes false db i notes now = db ∧
    update_fedex_id false db i fx now = db ∧
    update_gcic false db i checked now = db ∧
    update_mec false db i checked now = db ∧
    update_candidate_status false db i s now = db ∧
    clear_fadv_flag false db i now = db :=
  ⟨rfl, fun _ => rfl, rfl, rfl, rfl, rfl, rfl, rfl⟩

/-! ## Claim C7 — missing or unknown client identifier -/

/-- Claim C7: a missing/empty client identifier or one absent from the
registry renders a blocking error state with zero candidate rows,
whatever the store holds. -/
theorem C7_unknown_client (param : Option String)
    (registry : List (String × ClientInfo)) (configured : Bool)
    (db : List DbCandidate)
    (h : param = none ∨ param = some "" ∨
      ∃ s, param = some s ∧ registry.lookup s = none) :
    isErrorState (clientMain param registry configured db) = true ∧
    rowsShown (clientMain param registry configured db) = [] := by
  rcases h with h | h | ⟨s, hp, hl⟩
  · subst h
    exact ⟨rfl, rfl⟩
  · subst h
    exact ⟨rfl, rfl⟩
  · subst hp
    by_cases hs : s = ""
    · subst hs
      exact ⟨rfl, rfl⟩
    · simp [clientMain, hs, hl, isErrorState, rowsShown]

/-- Witness for C7: unknown identifier against a nonempty store. -/
theorem C7_unknown_client_witness :
    isErrorState (clientMain (some "zzz") [] true [dbFlagged]) = true ∧
    rowsShown (clientMain (some "zzz") [] true [dbFlagged]) = [] :=
  C7_unknown_client (some "zzz") [] true [dbFlagged]
    (Or.inr (Or.inr ⟨"zzz", rfl, rfl⟩))

/-! ## Claim C8 — client scoping of the exposed rows -/

/-- Claim C8: every row the client view exposes is the projection of a
store row whose `client_id` equals the requested identifier; rows of
other clients are never exposed. -/
theorem C8_client_scope (configured : Bool) (db : List DbCandidate)
    (c : String) (x : ClientRow)
    (hx : x ∈ load_candidates_client configured db c) :
    ∃ r ∈ db, r.client_id = c ∧ x = clientRowOf r := by
  cases configured with
  | false => simp [load_candidates_client] at hx
  | true =>
    simp only [load_candidates_client, if_true, List.mem_map] at hx
    obtain ⟨r, hr, he⟩ := hx
    have hr2 := List.mem_filter.mp ((mem_sortBy _ _ _).mp hr)
    exact ⟨r, hr2.1, eq_of_beq hr2.2, he.symm⟩

/-- Witness for C8 on a one-row store of client cbm. -/
theorem C8_client_scope_witness :
    ∃ r ∈ [dbFlagged], r.client_id = "cbm" ∧
      clientRowOf dbFlagged = clientRowOf r :=
  C8_client_scope true [dbFlagged] "cbm" (clientRowOf dbFlagged) (by decide)

end Peakats
